import Mathlib

/-!
Verification of the scholarship rule engine in `src/LabReport.py`.

The engine's core is four Python functions: the operator registry `OPS`,
`evaluate_condition`, `rule_matches` and `run_rules`, plus the constant
rule catalog `DEFAULT_RULES`.  This file embeds those functions in Lean
and proves the specified properties about them.

Embedding conventions:
* Python runtime values (facts values, condition components, actions) are
  the inductive type `Value`; Python numbers (int/float) are rationals.
* A Python expression that may raise is embedded as an `Option` result,
  `none` meaning "an exception was raised".
* Python's builtin comparison and membership semantics (`==`, `<`, `in`,
  ...) are embedded by the `pyEq`/`pyLt`/`pyLe`/`pyIn` family.
* A rule is a Python dict with optional keys `name`, `priority`,
  `conditions`, `action`; it is embedded as a structure of `Option`
  fields.  Following the data model, `priority` is an integer.  Condition
  components are arbitrary `Value`s (the source annotates conditions as
  `List[Any]`), so malformed conditions are representable.
-/

namespace LabReport

/-- Embedded Python value: `None`, booleans, numbers (int/float as `ℚ`),
strings, lists and string-keyed dicts (all dicts in this program are
JSON-style objects with string keys). -/
inductive Value where
  | null : Value
  | bool : Bool → Value
  | num : ℚ → Value
  | str : String → Value
  | list : List Value → Value
  | dict : List (String × Value) → Value
deriving Inhabited

/-- Numeric view used by Python's cross-type numeric comparisons:
booleans compare as the numbers 0 and 1 (`bool` is an `int` subclass). -/
def toNum? : Value → Option ℚ
  | .bool b => some (if b then 1 else 0)
  | .num q => some q
  | _ => none

/-- Character order by code point, used for string comparison. -/
def charLt (c d : Char) : Bool := c.toNat < d.toNat

/-- Lexicographic strict order on character lists (Python string `<`). -/
def charsLt : List Char → List Char → Bool
  | [], [] => false
  | [], _ :: _ => true
  | _ :: _, [] => false
  | c :: cs, d :: ds => if c = d then charsLt cs ds else charLt c d

/-- Lexicographic `≤` on character lists (Python string `<=`). -/
def charsLe : List Char → List Char → Bool
  | [], _ => true
  | _ :: _, [] => false
  | c :: cs, d :: ds => if c = d then charsLe cs ds else charLt c d

/-- Does `pat` occur as a contiguous prefix of `l`? -/
def charsIsPrefix : List Char → List Char → Bool
  | [], _ => true
  | _ :: _, [] => false
  | c :: cs, d :: ds => c = d && charsIsPrefix cs ds

/-- Does `pat` occur as a contiguous run anywhere in `l`?  This is
Python's substring containment `pat in s`. -/
def charsContains (l pat : List Char) : Bool :=
  match l with
  | [] => charsIsPrefix pat []
  | _ :: rest => charsIsPrefix pat l || charsContains rest pat

mutual

/-- Python `==` on builtin values.  Numbers (and booleans, which are
numbers: `bool` is an `int` subclass) compare numerically across types;
strings, lists and dicts compare structurally; values of unrelated types
are unequal rather than an error.  (Modeling note: dict equality is
compared entry-by-entry in order; the dicts of this program are JSON
objects built in a fixed key order, and no rule or fact in scope compares
dicts.) -/
def pyEq : Value → Value → Bool
  | .null, .null => true
  | .bool a, .bool b => a == b
  | .bool a, .num q => (if a then (1 : ℚ) else 0) == q
  | .num p, .bool b => p == (if b then (1 : ℚ) else 0)
  | .num p, .num q => p == q
  | .str s, .str t => s == t
  | .list xs, .list ys => pyEqList xs ys
  | .dict xs, .dict ys => pyEqEntries xs ys
  | _, _ => false

/-- Itemwise Python `==` of two lists (equal lengths required). -/
def pyEqList : List Value → List Value → Bool
  | [], [] => true
  | x :: xs, y :: ys => pyEq x y && pyEqList xs ys
  | _, _ => false

/-- Entrywise Python `==` of two dicts' key/value sequences. -/
def pyEqEntries : List (String × Value) → List (String × Value) → Bool
  | [], [] => true
  | (k, v) :: xs, (l, w) :: ys => k == l && pyEq v w && pyEqEntries xs ys
  | _, _ => false

end

mutual

/-- Python `<` on builtin values; `none` is a raised `TypeError`
(operands of unrelated, unordered types — including `None`, which orders
with nothing).  Lists compare lexicographically. -/
def pyLt : Value → Value → Option Bool
  | .bool a, .bool b => some (decide ((if a then (1 : ℚ) else 0) < if b then 1 else 0))
  | .bool a, .num q => some (decide ((if a then (1 : ℚ) else 0) < q))
  | .num p, .bool b => some (decide (p < if b then (1 : ℚ) else 0))
  | .num p, .num q => some (decide (p < q))
  | .str s, .str t => some (charsLt s.toList t.toList)
  | .list xs, .list ys => pyLtList xs ys
  | _, _ => none

/-- Lexicographic Python `<` of two lists: the first non-`==` pair of
items decides; a strict prefix is smaller. -/
def pyLtList : List Value → List Value → Option Bool
  | [], [] => some false
  | [], _ :: _ => some true
  | _ :: _, [] => some false
  | x :: xs, y :: ys => if pyEq x y then pyLtList xs ys else pyLt x y

end

mutual

/-- Python `<=` on builtin values; `none` is a raised `TypeError`. -/
def pyLe : Value → Value → Option Bool
  | .bool a, .bool b => some (decide ((if a then (1 : ℚ) else 0) ≤ if b then 1 else 0))
  | .bool a, .num q => some (decide ((if a then (1 : ℚ) else 0) ≤ q))
  | .num p, .bool b => some (decide (p ≤ if b then (1 : ℚ) else 0))
  | .num p, .num q => some (decide (p ≤ q))
  | .str s, .str t => some (charsLe s.toList t.toList)
  | .list xs, .list ys => pyLeList xs ys
  | _, _ => none

/-- Lexicographic Python `<=` of two lists: the first non-`==` pair of
items decides (with `<=`); a prefix is `<=` its extension. -/
def pyLeList : List Value → List Value → Option Bool
  | [], _ => some true
  | _ :: _, [] => some false
  | x :: xs, y :: ys => if pyEq x y then pyLeList xs ys else pyLe x y

end

/-- Python `a in b`; `none` is a raised `TypeError` (`in` against a
non-container, a non-string needle on a string, or an unhashable needle
on a dict).  List membership tests `==` against each item; string
membership is substring containment; dict membership tests the keys. -/
def pyIn (a b : Value) : Option Bool :=
  match b with
  | .list ys => some (ys.any (fun y => pyEq a y))
  | .str t =>
    match a with
    | .str s => some (charsContains t.toList s.toList)
    | _ => none
  | .dict ys =>
    match a with
    | .str s => some (ys.any (fun kv => kv.1 == s))
    | .list _ => none
    | .dict _ => none
    | _ => some false
  | _ => none

/-- The operator tags registered in `OPS` (source lines 7-16). -/
inductive OpKind where
  | eq | ne | gt | ge | lt | le | mem | notMem
deriving DecidableEq, Inhabited

/-- The operator registry `OPS`: symbol → operator, as an association
list mirroring the source dict (source lines 7-16). -/
def OPS : List (String × OpKind) :=
  [("==", .eq), ("!=", .ne), (">", .gt), (">=", .ge),
   ("<", .lt), ("<=", .le), ("in", .mem), ("not_in", .notMem)]

/-- Apply a registered operator's predicate to `(factValue, ruleValue)`;
`none` is a raised exception.  `operator.eq`/`ne` never raise; the
ordered comparisons `a > b` and `a >= b` are `b < a` and `b <= a` for the
builtin types in scope. -/
def applyOp : OpKind → Value → Value → Option Bool
  | .eq, a, b => some (pyEq a b)
  | .ne, a, b => some (!pyEq a b)
  | .gt, a, b => pyLt b a
  | .ge, a, b => pyLe b a
  | .lt, a, b => pyLt a b
  | .le, a, b => pyLe a b
  | .mem, a, b => pyIn a b
  | .notMem, a, b => (pyIn a b).map (fun r => !r)

/-- A facts mapping: a string-keyed dict of values. -/
abbrev Facts := List (String × Value)

/-- Is a value hashable in Python?  Lists and dicts are not; using one as
a dict key in a membership test raises `TypeError`. -/
def Value.hashable : Value → Bool
  | .list _ => false
  | .dict _ => false
  | _ => true

/-- Python `field in facts` membership test on the (string-keyed) facts
dict; `none` is the `TypeError` raised when `field` is unhashable. -/
def factsHasKey (facts : Facts) : Value → Option Bool
  | .list _ => none
  | .dict _ => none
  | .str s => some (facts.any (fun kv => kv.1 == s))
  | _ => some false

/-- `facts[field]` for a field known to be present (so a string key). -/
def factsGet (facts : Facts) : Value → Value
  | .str s => ((facts.find? (fun kv => kv.1 == s)).map (fun kv => kv.2)).getD .null
  | _ => .null

/-- Python `op in OPS` plus the registry lookup: `none` is the
`TypeError` raised when `op` is unhashable, `some none` means the test
ran and the operator is not registered. -/
def opsFind (op : Value) : Option (Option OpKind) :=
  match op with
  | .list _ => none
  | .dict _ => none
  | .str s => some (OPS.lookup s)
  | _ => some none

/-- `evaluate_condition(facts, cond)` (source lines 84-94): a condition
without exactly three components is `False`; then
`if field not in facts or op not in OPS: return False` (short-circuit:
the operator is not examined when the field test already returned
`True`); then `OPS[op](facts[field], value)` inside `try`, any exception
giving `False`.  The result is `none` exactly when the function raises,
which happens only in the uncaught membership tests on an unhashable
`field` or `op`. -/
def evaluate_condition (facts : Facts) : List Value → Option Bool
  | [field, op, value] =>
    match factsHasKey facts field with
    | none => none
    | some false => some false
    | some true =>
      match opsFind op with
      | none => none
      | some none => some false
      | some (some k) => some ((applyOp k (factsGet facts field) value).getD false)
  | _ => some false

/-- A rule dict: optional keys `name`, `priority`, `conditions`,
`action`.  Per the data model, `priority` is an integer. -/
structure Rule where
  name : Option Value := none
  priority : Option Int := none
  conditions : Option (List (List Value)) := none
  action : Option Value := none
deriving Inhabited

/-- Python's `all(evaluate_condition(facts, c) for c in conds)`:
short-circuits at the first false condition, and re-raises (`none`) if an
evaluation raises before a false one is found. -/
def condsAll (facts : Facts) : List (List Value) → Option Bool
  | [] => some true
  | c :: cs =>
    match evaluate_condition facts c with
    | none => none
    | some false => some false
    | some true => condsAll facts cs

/-- `rule_matches(facts, rule)` (source lines 96-98): all conditions of
`rule.get("conditions", [])` must hold. -/
def rule_matches (facts : Facts) (rule : Rule) : Option Bool :=
  condsAll facts (rule.conditions.getD [])

/-- The comprehension `[r for r in rules if rule_matches(facts, r)]`;
`none` if some match raises. -/
def firedList (facts : Facts) : List Rule → Option (List Rule)
  | [] => some []
  | r :: rs =>
    match rule_matches facts r with
    | none => none
    | some true => (firedList facts rs).map (fun l => r :: l)
    | some false => firedList facts rs

/-- `r.get("priority", 0)`. -/
def priorityD (r : Rule) : Int := r.priority.getD 0

/-- Insert a rule into an already-sorted (descending-priority) list,
before every rule of equal or lower priority.  Because `sortDesc` inserts
rules from the last to the first, an earlier rule is inserted later and
lands before equal-priority rules, which matches a stable sort. -/
def insertDesc (x : Rule) : List Rule → List Rule
  | [] => [x]
  | y :: ys => if priorityD x ≥ priorityD y then x :: y :: ys else y :: insertDesc x ys

/-- `sorted(fired, key=lambda r: r.get("priority", 0), reverse=True)`:
Python's `sorted` with `reverse=True` is the stable sort by descending
key, which is the unique list that is sorted on the key and keeps
equal-key elements in input order; it is embedded as a stable insertion
sort. -/
def sortDesc : List Rule → List Rule
  | [] => []
  | x :: xs => insertDesc x (sortDesc xs)

/-- The `{"decision": "REVIEW", "reason": "No rule matched"}` default. -/
def noMatchAction : Value :=
  .dict [("decision", .str "REVIEW"), ("reason", .str "No rule matched")]

/-- The `{"decision": "REVIEW", "reason": "No action"}` fallback. -/
def noActionVal : Value :=
  .dict [("decision", .str "REVIEW"), ("reason", .str "No action")]

/-- `run_rules(facts, rules)` (source lines 100-112): returns
`(best_action, fired_rules)`, or `none` when the comprehension raises. -/
def run_rules (facts : Facts) (rules : List Rule) : Option (Value × List Rule) :=
  match firedList facts rules with
  | none => none
  | some [] => some (noMatchAction, [])
  | some (r :: rs) =>
    let fired_sorted := sortDesc (r :: rs)
    some ((fired_sorted.headI.action).getD noActionVal, fired_sorted)

/-- The "Top merit candidate" rule, priority 100 (source lines 19-32). -/
def ruleTopMerit : Rule :=
  { name := some (.str "Top merit candidate"),
    priority := some 100,
    conditions := some
      [[.str "cgpa", .str ">=", .num (mkRat 37 10)],
       [.str "co_curricular_score", .str ">=", .num 80],
       [.str "family_income", .str "<=", .num 8000],
       [.str "disciplinary_actions", .str "==", .num 0]],
    action := some (.dict
      [("decision", .str "AWARD_FULL"),
       ("reason", .str "Excellent academic & co-curricular performance, with acceptable need")]) }

/-- The "Good candidate - partial scholarship" rule, priority 80
(source lines 33-46). -/
def rulePartial : Rule :=
  { name := some (.str "Good candidate - partial scholarship"),
    priority := some 80,
    conditions := some
      [[.str "cgpa", .str ">=", .num (mkRat 33 10)],
       [.str "co_curricular_score", .str ">=", .num 60],
       [.str "family_income", .str "<=", .num 12000],
       [.str "disciplinary_actions", .str "<=", .num 1]],
    action := some (.dict
      [("decision", .str "AWARD_PARTIAL"),
       ("reason", .str "Good academic & involvement record with moderate need")]) }

/-- The "Need-based review" rule, priority 70 (source lines 47-58). -/
def ruleNeedBased : Rule :=
  { name := some (.str "Need-based review"),
    priority := some 70,
    conditions := some
      [[.str "cgpa", .str ">=", .num (mkRat 25 10)],
       [.str "family_income", .str "<=", .num 4000]],
    action := some (.dict
      [("decision", .str "REVIEW"),
       ("reason", .str "High need but borderline academic score")]) }

/-- The "Low CGPA – not eligible" rule, priority 95 (source
lines 59-69). -/
def ruleLowCgpa : Rule :=
  { name := some (.str "Low CGPA – not eligible"),
    priority := some 95,
    conditions := some
      [[.str "cgpa", .str "<", .num (mkRat 25 10)]],
    action := some (.dict
      [("decision", .str "REJECT"),
       ("reason", .str "CGPA below minimum scholarship requirement")]) }

/-- The "Serious disciplinary record" rule, priority 90 (source
lines 70-80). -/
def ruleDisciplinary : Rule :=
  { name := some (.str "Serious disciplinary record"),
    priority := some 90,
    conditions := some
      [[.str "disciplinary_actions", .str ">=", .num 2]],
    action := some (.dict
      [("decision", .str "REJECT"),
       ("reason", .str "Too many disciplinary records")]) }

/-- `DEFAULT_RULES` (source lines 18-81), the five-rule catalog. -/
def DEFAULT_RULES : List Rule :=
  [ruleTopMerit, rulePartial, ruleNeedBased, ruleLowCgpa, ruleDisciplinary]

/-- The facts of the low-CGPA scenario:
`{cgpa: 2.0, co_curricular_score: 50, family_income: 3000,
disciplinary_actions: 0}`. -/
def factsLowCgpa : Facts :=
  [("cgpa", .num 2), ("co_curricular_score", .num 50),
   ("family_income", .num 3000), ("disciplinary_actions", .num 0)]

/-- The facts of the disciplinary scenario:
`{cgpa: 3.9, co_curricular_score: 90, family_income: 1000,
disciplinary_actions: 3}`. -/
def factsDisciplinary : Facts :=
  [("cgpa", .num (mkRat 39 10)), ("co_curricular_score", .num 90),
   ("family_income", .num 1000), ("disciplinary_actions", .num 3)]

/-- A condition whose uncaught membership tests cannot raise: either it
does not have exactly three components (then it is rejected before any
lookup), or its field and operator components are hashable. -/
def condSafe : List Value → Bool
  | [field, op, _] => field.hashable && op.hashable
  | _ => true

/-- A rule all of whose conditions are `condSafe`. -/
def ruleSafe (r : Rule) : Bool :=
  (r.conditions.getD []).all condSafe

/-- The sublist of `rules` whose rules match `facts` (in input order):
the fired set before sorting. -/
def matchedRules (facts : Facts) (rules : List Rule) : List Rule :=
  rules.filter (fun r => (rule_matches facts r).getD false)

/-! ### Helper lemmas -/

theorem factsHasKey_isSome (facts : Facts) (f : Value)
    (h : f.hashable = true) : (factsHasKey facts f).isSome := by
  cases f <;> simp_all [Value.hashable, factsHasKey]

theorem opsFind_isSome (o : Value) (h : o.hashable = true) :
    (opsFind o).isSome := by
  cases o <;> simp_all [Value.hashable, opsFind]

theorem evaluate_condition_isSome (facts : Facts) (cond : List Value)
    (h : condSafe cond = true) : (evaluate_condition facts cond).isSome := by
  rcases cond with _ | ⟨f, _ | ⟨o, _ | ⟨v, _ | ⟨d, t⟩⟩⟩⟩
  · simp [evaluate_condition]
  · simp [evaluate_condition]
  · simp [evaluate_condition]
  · simp only [condSafe, Bool.and_eq_true] at h
    obtain ⟨hf, ho⟩ := h
    rw [evaluate_condition]
    rcases hfk : factsHasKey facts f with _ | b
    · exact absurd (factsHasKey_isSome facts f hf) (by simp [hfk])
    · cases b
      · simp
      · rcases hop : opsFind o with _ | k
        · exact absurd (opsFind_isSome o ho) (by simp [hop])
        · cases k <;> simp
  · simp [evaluate_condition]

theorem condsAll_isSome (facts : Facts) (conds : List (List Value))
    (h : conds.all condSafe = true) : (condsAll facts conds).isSome := by
  induction conds with
  | nil => simp [condsAll]
  | cons c cs ih =>
    simp only [List.all_cons, Bool.and_eq_true] at h
    have hc := evaluate_condition_isSome facts c h.1
    rcases he : evaluate_condition facts c with _ | b
    · exact absurd hc (by simp [he])
    · cases b <;> simp [condsAll, he, ih h.2]

theorem rule_matches_isSome (facts : Facts) (r : Rule)
    (h : ruleSafe r = true) : (rule_matches facts r).isSome :=
  condsAll_isSome facts (r.conditions.getD []) h

theorem firedList_eq_filter (facts : Facts) (rules : List Rule)
    (h : ∀ r ∈ rules, (rule_matches facts r).isSome) :
    firedList facts rules = some (matchedRules facts rules) := by
  induction rules with
  | nil => simp [firedList, matchedRules]
  | cons r rs ih =>
    have hr := h r (by simp)
    have hrs : ∀ x ∈ rs, (rule_matches facts x).isSome :=
      fun x hx => h x (by simp [hx])
    rcases hm : rule_matches facts r with _ | b
    · exact absurd hr (by simp [hm])
    · cases b <;>
        simp [firedList, hm, matchedRules, List.filter_cons, ih hrs]

/-! ### Claim theorems -/

/-- C1 (as amended): `run_rules` is total — it returns a result pair and
does not raise — for every facts mapping and every rule list whose
conditions have hashable field and operator components.  Malformed
arities, unknown fields, unknown operators and operand type errors all
degrade to non-match rather than raising; only an unhashable (list- or
dict-valued) field or operator component makes the uncaught membership
test itself raise `TypeError`. -/
theorem claim_C1 (facts : Facts) (rules : List Rule)
    (h : rules.all ruleSafe = true) : (run_rules facts rules).isSome = true := by
  rw [List.all_eq_true] at h
  have hs : ∀ r ∈ rules, (rule_matches facts r).isSome := by
    intro r hr
    have := h r hr
    simp only [ruleSafe] at this
    exact rule_matches_isSome facts r this
  rcases hf : matchedRules facts rules with _ | ⟨r0, rest⟩ <;>
    simp [run_rules, firedList_eq_filter facts rules hs, hf]

/-- Witness for C1 at the default catalog and the low-CGPA facts. -/
theorem claim_C1_witness :
    DEFAULT_RULES.all ruleSafe = true ∧
      (run_rules factsLowCgpa DEFAULT_RULES).isSome = true :=
  ⟨by decide, claim_C1 factsLowCgpa DEFAULT_RULES (by decide)⟩

/-- Counterexample to C1 as stated: a rule list containing the malformed
condition `["x", [], 0]` (its operator is an unhashable list) makes
`run_rules` raise `TypeError` in the uncaught test `op not in OPS`, so
`run_rules` does not return a result pair there. -/
theorem claim_C1_counterexample :
    (run_rules [("x", Value.num 1)]
        [{ conditions := some [[Value.str "x", Value.list [], Value.num 0]] }]).isSome
      = false := rfl

/-- C2: if no rule in the list matches the facts, `run_rules` returns
the REVIEW/"No rule matched" action together with an empty fired list. -/
theorem claim_C2 (facts : Facts) (rules : List Rule)
    (h : ∀ r ∈ rules, rule_matches facts r = some false) :
    run_rules facts rules =
      some (Value.dict [("decision", Value.str "REVIEW"),
        ("reason", Value.str "No rule matched")], []) := by
  have hs : ∀ r ∈ rules, (rule_matches facts r).isSome :=
    fun r hr => by simp [h r hr]
  have hnil : matchedRules facts rules = [] := by
    rw [matchedRules, List.filter_eq_nil_iff]
    intro r hr
    simp [h r hr]
  rw [run_rules, firedList_eq_filter facts rules hs, hnil]
  rfl

/-- Witness for C2: the empty facts mapping matches no default rule. -/
theorem claim_C2_witness :
    (∀ r ∈ DEFAULT_RULES, rule_matches [] r = some false) ∧
      run_rules [] DEFAULT_RULES =
        some (Value.dict [("decision", Value.str "REVIEW"),
          ("reason", Value.str "No rule matched")], []) :=
  ⟨by decide, claim_C2 [] DEFAULT_RULES (by decide)⟩

/-- C5 (as amended): for conditions whose field and operator components
are hashable, `evaluate_condition` returns `False` — rather than raising
— when the condition does not have exactly three components, when its
field is absent from the facts, when its operator is not registered, or
when applying the operator's predicate raises.  (As stated the claim
fails: an unhashable field or operator component raises, see the
counterexample.) -/
theorem claim_C5 (facts : Facts) (cond : List Value) (f o v : Value) (k : OpKind)
    (hf : f.hashable = true) (ho : o.hashable = true) :
    (cond.length ≠ 3 → evaluate_condition facts cond = some false) ∧
    (factsHasKey facts f = some false →
      evaluate_condition facts [f, o, v] = some false) ∧
    (opsFind o = some none → evaluate_condition facts [f, o, v] = some false) ∧
    (opsFind o = some (some k) → applyOp k (factsGet facts f) v = none →
      evaluate_condition facts [f, o, v] = some false) := by
  refine ⟨?_, ?_, ?_, ?_⟩
  · intro hlen
    rcases cond with _ | ⟨a, _ | ⟨b, _ | ⟨c, _ | ⟨d, t⟩⟩⟩⟩ <;>
      first
      | rfl
      | exact absurd rfl hlen
  · intro habs
    rw [evaluate_condition, habs]
  · intro hop
    rw [evaluate_condition]
    rcases hfk : factsHasKey facts f with _ | b
    · exact absurd (factsHasKey_isSome facts f hf) (by simp [hfk])
    · cases b
      · rfl
      · rw [hop]
  · intro hop hraise
    rw [evaluate_condition]
    rcases hfk : factsHasKey facts f with _ | b
    · exact absurd (factsHasKey_isSome facts f hf) (by simp [hfk])
    · cases b
      · rfl
      · simp only [hop]
        simp [hraise]

/-- Witness for C5: facts `{x: 1}`, a two-component condition, a field
`y` absent from the facts, and the unregistered operator `"=>"`. -/
theorem claim_C5_witness :
    (Value.str "y").hashable = true ∧
    (([Value.str "x", Value.str "x"] : List Value).length ≠ 3 →
      evaluate_condition [("x", Value.num 1)]
        [Value.str "x", Value.str "x"] = some false) ∧
    (factsHasKey [("x", Value.num 1)] (Value.str "y") = some false →
      evaluate_condition [("x", Value.num 1)]
        [Value.str "y", Value.str "=>", Value.str "a"] = some false) :=
  ⟨by decide,
   fun h => (claim_C5 [("x", Value.num 1)]
      [Value.str "x", Value.str "x"] (Value.str "y")
      (Value.str "=>") (Value.str "a") OpKind.gt (by decide) (by decide)).1 h,
   fun h => ((claim_C5 [("x", Value.num 1)]
      [Value.str "x", Value.str "x"] (Value.str "y")
      (Value.str "=>") (Value.str "a") OpKind.gt (by decide) (by decide)).2.1 h)⟩

/-- Counterexample to C5 as stated: the condition `["x", [], 0]` has a
registered-operator test on the unhashable operator `[]`; the claim says
it evaluates to false, but `evaluate_condition` raises (`none`) in the
uncaught test `op not in OPS`. -/
theorem claim_C5_counterexample :
    evaluate_condition [("x", Value.num 1)]
        [Value.str "x", Value.list [], Value.num 0] ≠ some false ∧
      evaluate_condition [("x", Value.num 1)]
        [Value.str "x", Value.list [], Value.num 0] = none :=
  ⟨by decide, rfl⟩

/-- C6: a rule whose conditions sequence is the empty list matches every
facts mapping (`all` of an empty generator is `True`). -/
theorem claim_C6 (facts : Facts) (rule : Rule)
    (h : rule.conditions = some []) : rule_matches facts rule = some true := by
  rw [rule_matches, h]
  rfl

/-- Witness for C6: an empty-conditions rule against the low-CGPA
facts. -/
theorem claim_C6_witness :
    ({ conditions := some [] } : Rule).conditions = some [] ∧
      rule_matches factsLowCgpa { conditions := some [] } = some true :=
  ⟨rfl, claim_C6 factsLowCgpa { conditions := some [] } rfl⟩

/-- C9: a rule with no conditions key at all also matches every facts
mapping: `rule.get("conditions", [])` substitutes the empty sequence. -/
theorem claim_C9 (facts : Facts) (rule : Rule)
    (h : rule.conditions = none) : rule_matches facts rule = some true := by
  rw [rule_matches, h]
  rfl

/-- Witness for C9: the empty rule dict against the low-CGPA facts. -/
theorem claim_C9_witness :
    ({} : Rule).conditions = none ∧
      rule_matches factsLowCgpa {} = some true :=
  ⟨rfl, claim_C9 factsLowCgpa {} rfl⟩

/-! ### Sorting lemmas -/

theorem insertDesc_perm (x : Rule) (l : List Rule) :
    List.Perm (insertDesc x l) (x :: l) := by
  induction l with
  | nil => rfl
  | cons y ys ih =>
    by_cases h : priorityD x ≥ priorityD y
    · rw [insertDesc, if_pos h]
    · rw [insertDesc, if_neg h]
      exact (ih.cons y).trans (List.Perm.swap x y ys)

theorem sortDesc_perm (l : List Rule) : List.Perm (sortDesc l) l := by
  induction l with
  | nil => rfl
  | cons x xs ih => exact (insertDesc_perm x (sortDesc xs)).trans (ih.cons x)

theorem insertDesc_pairwise (x : Rule) (l : List Rule)
    (h : l.Pairwise (fun a b => priorityD b ≤ priorityD a)) :
    (insertDesc x l).Pairwise (fun a b => priorityD b ≤ priorityD a) := by
  induction l with
  | nil => simp [insertDesc]
  | cons y ys ih =>
    rw [List.pairwise_cons] at h
    obtain ⟨hy, hys⟩ := h
    by_cases hxy : priorityD x ≥ priorityD y
    · rw [insertDesc, if_pos hxy]
      refine List.Pairwise.cons ?_ (List.Pairwise.cons hy hys)
      intro z hz
      rcases List.mem_cons.mp hz with rfl | hz'
      · exact hxy
      · exact le_trans (hy z hz') hxy
    · rw [insertDesc, if_neg hxy]
      refine List.Pairwise.cons ?_ (ih hys)
      intro z hz
      rcases List.mem_cons.mp ((insertDesc_perm x ys).mem_iff.mp hz) with rfl | hz2
      · exact le_of_lt (lt_of_not_ge hxy)
      · exact hy z hz2

theorem sortDesc_pairwise (l : List Rule) :
    (sortDesc l).Pairwise (fun a b => priorityD b ≤ priorityD a) := by
  induction l with
  | nil => simp [sortDesc]
  | cons x xs ih => exact insertDesc_pairwise x (sortDesc xs) ih

theorem insertDesc_filter (q : Int) (x : Rule) (l : List Rule) :
    (insertDesc x l).filter (fun r => priorityD r == q) =
      (x :: l).filter (fun r => priorityD r == q) := by
  induction l with
  | nil => rfl
  | cons y ys ih =>
    by_cases hxy : priorityD x ≥ priorityD y
    · rw [insertDesc, if_pos hxy]
    · rw [insertDesc, if_neg hxy]
      by_cases hx : priorityD x = q
      · have hyq : ¬ priorityD y = q := by
          intro hyq
          exact hxy (le_of_eq (hyq.trans hx.symm))
        simp [List.filter_cons, hx, hyq, ih]
      · by_cases hy : priorityD y = q <;>
          simp [List.filter_cons, hx, hy, ih]

theorem sortDesc_filter (q : Int) (l : List Rule) :
    (sortDesc l).filter (fun r => priorityD r == q) =
      l.filter (fun r => priorityD r == q) := by
  induction l with
  | nil => rfl
  | cons x xs ih =>
    rw [sortDesc, insertDesc_filter q x (sortDesc xs)]
    by_cases hx : priorityD x = q <;> simp [List.filter_cons, hx, ih]

/-- Provided `run_rules` does not raise, a non-empty returned fired list
is `sortDesc` of the matching sublist, and the selected action is read
off its first element. -/
theorem run_rules_eq_of_matched (facts : Facts) (rules : List Rule)
    (hs : ∀ r ∈ rules, (rule_matches facts r).isSome)
    (r0 : Rule) (rest : List Rule)
    (hm : matchedRules facts rules = r0 :: rest) :
    run_rules facts rules =
      some ((sortDesc (matchedRules facts rules)).headI.action.getD noActionVal,
        sortDesc (matchedRules facts rules)) := by
  rw [run_rules, firedList_eq_filter facts rules hs, hm]

/-! ### Claims C3, C4, C10 -/

/-- C3: when no rule evaluation raises and at least one rule matches,
the fired list returned by `run_rules` contains exactly the matching
rules (a permutation of the in-order matching sublist), is sorted by
priority descending (`r.get("priority", 0)` supplying the default 0
through `priorityD`), and is stable: for every priority value, the
fired rules of that priority appear in their original input order. -/
theorem claim_C3 (facts : Facts) (rules : List Rule)
    (h1 : rules.all (fun r => (rule_matches facts r).isSome) = true)
    (h2 : rules.any (fun r => rule_matches facts r == some true) = true) :
    run_rules facts rules =
      some ((sortDesc (matchedRules facts rules)).headI.action.getD noActionVal,
        sortDesc (matchedRules facts rules)) ∧
    List.Perm (sortDesc (matchedRules facts rules)) (matchedRules facts rules) ∧
    (sortDesc (matchedRules facts rules)).Pairwise
      (fun a b => priorityD b ≤ priorityD a) ∧
    ∀ q : Int, (sortDesc (matchedRules facts rules)).filter
        (fun r => priorityD r == q) =
      (matchedRules facts rules).filter (fun r => priorityD r == q) := by
  rw [List.all_eq_true] at h1
  have hne : matchedRules facts rules ≠ [] := by
    rw [List.any_eq_true] at h2
    obtain ⟨r, hr, hmr⟩ := h2
    rw [beq_iff_eq] at hmr
    intro hnil
    have : r ∈ matchedRules facts rules := by
      rw [matchedRules, List.mem_filter]
      exact ⟨hr, by simp [hmr]⟩
    rw [hnil] at this
    exact List.not_mem_nil r this
  rcases hm : matchedRules facts rules with _ | ⟨r0, rest⟩
  · exact absurd hm hne
  · rw [← hm]
    exact ⟨run_rules_eq_of_matched facts rules h1 r0 rest hm,
      sortDesc_perm _, sortDesc_pairwise _, fun q => sortDesc_filter q _⟩

/-- Witness for C3 at the default catalog and the disciplinary facts
(two rules fire, priorities 90 and 70). -/
theorem claim_C3_witness :
    DEFAULT_RULES.all (fun r => (rule_matches factsDisciplinary r).isSome) = true ∧
    DEFAULT_RULES.any (fun r => rule_matches factsDisciplinary r == some true) = true ∧
    run_rules factsDisciplinary DEFAULT_RULES =
      some ((sortDesc (matchedRules factsDisciplinary DEFAULT_RULES)).headI.action.getD
          noActionVal,
        sortDesc (matchedRules factsDisciplinary DEFAULT_RULES)) :=
  ⟨by decide, by decide,
    (claim_C3 factsDisciplinary DEFAULT_RULES (by decide) (by decide)).1⟩

/-- When `run_rules` returns a non-empty fired list, the selected
action is read from the head of that list by `get("action", fallback)`.
(Shared support for the claims about action selection.) -/
theorem run_rules_action_of_cons (facts : Facts) (rules : List Rule)
    (b : Value) (r : Rule) (fs : List Rule)
    (h : run_rules facts rules = some (b, r :: fs)) :
    b = r.action.getD noActionVal := by
  rcases hf : firedList facts rules with _ | l
  · rw [run_rules, hf] at h
    exact absurd h (by simp)
  · rcases l with _ | ⟨x, xs⟩
    · rw [run_rules, hf, Option.some_inj] at h
      injection h with hb hl
      simp at hl
    · rw [run_rules, hf, Option.some_inj] at h
      injection h with hb hl
      rw [← hb, hl]
      rfl

/-- C4: whenever `run_rules` returns a non-empty fired list, the
selected action is the `action` of the first (highest-priority) element
of the sorted fired list, with the REVIEW/"No action" fallback when that
rule has no action key. -/
theorem claim_C4 (facts : Facts) (rules : List Rule) (b : Value)
    (r : Rule) (fs : List Rule)
    (h : run_rules facts rules = some (b, r :: fs)) :
    b = r.action.getD (Value.dict [("decision", Value.str "REVIEW"),
      ("reason", Value.str "No action")]) :=
  run_rules_action_of_cons facts rules b r fs h

/-- Witness for C4 at the disciplinary facts: the fired list is
`[ruleDisciplinary, ruleNeedBased]` and the selected action is the
disciplinary rule's REJECT action. -/
theorem claim_C4_witness :
    run_rules factsDisciplinary DEFAULT_RULES =
      some (Value.dict [("decision", Value.str "REJECT"),
          ("reason", Value.str "Too many disciplinary records")],
        [ruleDisciplinary, ruleNeedBased]) ∧
    Value.dict [("decision", Value.str "REJECT"),
        ("reason", Value.str "Too many disciplinary records")] =
      ruleDisciplinary.action.getD (Value.dict [("decision", Value.str "REVIEW"),
        ("reason", Value.str "No action")]) :=
  ⟨rfl, claim_C4 factsDisciplinary DEFAULT_RULES _ ruleDisciplinary
    [ruleNeedBased] rfl⟩

/-- C10: the REVIEW/"No action" fallback is selected only when the
highest-priority fired rule has no action key; an action key present
with any value — `None` and the empty dict included — is returned
unchanged as the selected action. -/
theorem claim_C10 (facts : Facts) (rules : List Rule) (b : Value)
    (r : Rule) (fs : List Rule)
    (h : run_rules facts rules = some (b, r :: fs)) :
    (r.action = none → b = Value.dict [("decision", Value.str "REVIEW"),
      ("reason", Value.str "No action")]) ∧
    ∀ v : Value, r.action = some v → b = v := by
  have hb := run_rules_action_of_cons facts rules b r fs h
  constructor
  · intro hnone
    rw [hb, hnone]
    rfl
  · intro v hv
    rw [hb, hv]
    rfl

/-- Witness for C10 at the low-CGPA facts: the winning rule's action key
is present (the REJECT action), and that value is returned unchanged. -/
theorem claim_C10_witness :
    (ruleLowCgpa.action = none →
      Value.dict [("decision", Value.str "REJECT"),
          ("reason", Value.str "CGPA below minimum scholarship requirement")] =
        Value.dict [("decision", Value.str "REVIEW"),
          ("reason", Value.str "No action")]) ∧
    (ruleLowCgpa.action =
        some (Value.dict [("decision", Value.str "REJECT"),
          ("reason", Value.str "CGPA below minimum scholarship requirement")]) →
      Value.dict [("decision", Value.str "REJECT"),
          ("reason", Value.str "CGPA below minimum scholarship requirement")] =
        Value.dict [("decision", Value.str "REJECT"),
          ("reason", Value.str "CGPA below minimum scholarship requirement")]) :=
  ⟨(claim_C10 factsLowCgpa DEFAULT_RULES _ ruleLowCgpa [] rfl).1,
   fun hv => (claim_C10 factsLowCgpa DEFAULT_RULES _ ruleLowCgpa [] rfl).2 _ hv⟩

/-! ### Claims C7 and C8: concrete scenarios on the default catalog -/

/-- C7 (as amended): with the default catalog and the facts
`{cgpa: 2.0, co_curricular_score: 50, family_income: 3000,
disciplinary_actions: 0}`, `run_rules` selects REJECT with reason
"CGPA below minimum scholarship requirement", and the priority-95
low-CGPA rule is the only rule that fires.  (The claimed firing of the
priority-70 need-based rule is refuted by the counterexample: cgpa 2.0
fails its `cgpa >= 2.5` condition.) -/
theorem claim_C7 :
    run_rules factsLowCgpa DEFAULT_RULES =
      some (Value.dict [("decision", Value.str "REJECT"),
          ("reason", Value.str "CGPA below minimum scholarship requirement")],
        [ruleLowCgpa]) := rfl

/-- Counterexample to C7 as stated: at those facts the need-based rule
does not match (cgpa 2.0 fails its `cgpa >= 2.5` condition), so the
fired list is `[ruleLowCgpa]` alone, not the claimed two rules. -/
theorem claim_C7_counterexample :
    rule_matches factsLowCgpa ruleNeedBased = some false ∧
      firedList factsLowCgpa DEFAULT_RULES = some [ruleLowCgpa] :=
  ⟨rfl, rfl⟩

/-- C8 (as amended): with the default catalog and the facts
`{cgpa: 3.9, co_curricular_score: 90, family_income: 1000,
disciplinary_actions: 3}`, `run_rules` selects REJECT with reason
"Too many disciplinary records"; the priority-90 disciplinary rule and
the priority-70 need-based rule both fire, in that order.  (The claim
that only the disciplinary rule fires is refuted by counterexample:
cgpa 3.9 and income 1000 satisfy the need-based rule.) -/
theorem claim_C8 :
    run_rules factsDisciplinary DEFAULT_RULES =
      some (Value.dict [("decision", Value.str "REJECT"),
          ("reason", Value.str "Too many disciplinary records")],
        [ruleDisciplinary, ruleNeedBased]) := rfl

/-- Counterexample to C8 as stated: at those facts the need-based rule
also matches (cgpa 3.9 ≥ 2.5 and income 1000 ≤ 4000), so the fired set
is not the disciplinary rule alone. -/
theorem claim_C8_counterexample :
    rule_matches factsDisciplinary ruleNeedBased = some true ∧
      firedList factsDisciplinary DEFAULT_RULES =
        some [ruleNeedBased, ruleDisciplinary] :=
  ⟨rfl, rfl⟩

end LabReport
